import Mathlib

/-!
Shallow embedding of the hubuum-client-rust library, for checking its
natural-language specification against the code.

Each definition is translated from the Rust source it is named after:
* `FilterOperator`, `DataType`, `isApplicableTo`, `opDisplay`, `QueryFilter`,
  `intoTuples`, `intoQueryString` — `src/types/filter.rs`
* `FieldDesc`, `processFields` and the per-field contribution functions —
  `api_resource_derive/src/lib.rs` (`process_fields`)
* `buildUrl`, `buildRequest`, `handleResponse`, `requestWithEndpoint`,
  `oneOrErr` — `src/client/sync.rs`
* the async flavor's `asyncBuildUrl`, `asyncPatchUrl`, `asyncDeleteUrl` —
  `src/client/async.rs`
* `Endpoint` — `src/endpoints.rs`
* `NAME_FIELD` — `src/resources/mod.rs` and the resource implementations
-/

namespace Hubuum

/-- The filter operator taxonomy from `src/types/filter.rs`; every
constructor carries its negation flag `is_negated`. -/
inductive FilterOperator where
  | Equals (is_negated : Bool)
  | IEquals (is_negated : Bool)
  | Contains (is_negated : Bool)
  | IContains (is_negated : Bool)
  | StartsWith (is_negated : Bool)
  | IStartsWith (is_negated : Bool)
  | EndsWith (is_negated : Bool)
  | IEndsWith (is_negated : Bool)
  | Like (is_negated : Bool)
  | Regex (is_negated : Bool)
  | Gt (is_negated : Bool)
  | Gte (is_negated : Bool)
  | Lt (is_negated : Bool)
  | Lte (is_negated : Bool)
  | Between (is_negated : Bool)
  deriving DecidableEq, Repr

/-- The semantic data categories from `src/types/filter.rs`. -/
inductive DataType where
  | String
  | NumericOrDate
  | Boolean
  | Array
  deriving DecidableEq, Repr, BEq

/-- `FilterOperator::is_applicable_to` from `src/types/filter.rs`:
`Equals` is universal; `Gt`/`Gte`/`Lt`/`Lte`/`Between` require
`NumericOrDate`; `Contains` allows `String` or `Array`; every remaining
operator (the `_` catch-all, which includes `IEquals` and `IContains`)
requires `String`. -/
def isApplicableTo (op : FilterOperator) (data_type : DataType) : Bool :=
  match op with
  | .Equals _ => true
  | .Gt _ | .Gte _ | .Lt _ | .Lte _ | .Between _ =>
      data_type == DataType.NumericOrDate
  | .Contains _ =>
      data_type == DataType.String || data_type == DataType.Array
  | _ => data_type == DataType.String

/-- The `Display` implementation for `FilterOperator`: each arm writes the
lowercase operator name, with a `not_` prefix when `is_negated` is set. -/
def opDisplay (op : FilterOperator) : String :=
  match op with
  | .Equals b => if b then "not_equals" else "equals"
  | .IEquals b => if b then "not_iequals" else "iequals"
  | .Contains b => if b then "not_contains" else "contains"
  | .IContains b => if b then "not_icontains" else "icontains"
  | .StartsWith b => if b then "not_startswith" else "startswith"
  | .IStartsWith b => if b then "not_istartswith" else "istartswith"
  | .EndsWith b => if b then "not_endswith" else "endswith"
  | .IEndsWith b => if b then "not_iendswith" else "iendswith"
  | .Like b => if b then "not_like" else "like"
  | .Regex b => if b then "not_regex" else "regex"
  | .Gt b => if b then "not_gt" else "gt"
  | .Gte b => if b then "not_gte" else "gte"
  | .Lt b => if b then "not_lt" else "lt"
  | .Lte b => if b then "not_lte" else "lte"
  | .Between b => if b then "not_between" else "between"

/-- `QueryFilter` from `src/types/filter.rs` (field order as in source). -/
structure QueryFilter where
  key : String
  value : String
  operator : FilterOperator
  deriving DecidableEq, Repr

/-- Replacement of the leftmost non-overlapping occurrences of a pattern
in a character list, as Rust's `str::replace` performs it; `fuel` bounds
the scan (callers pass the list length, enough to consume the whole
input). -/
def replaceCore (pat repl : List Char) : Nat → List Char → List Char
  | _, [] => []
  | 0, l => l
  | fuel + 1, c :: rest =>
      if pat.isPrefixOf (c :: rest) then
        repl ++ replaceCore pat repl fuel ((c :: rest).drop pat.length)
      else
        c :: replaceCore pat repl fuel rest

/-- Rust's `str::replace`: substitute every non-overlapping occurrence of
`pat` by `repl`, scanning left to right. -/
def strReplace (s pat repl : String) : String :=
  ⟨replaceCore pat.data repl.data s.data.length s.data⟩

/-- Splitting of a character list on a separator, as Rust's `str::split`
performs it; `fuel` bounds the scan (callers pass the list length). -/
def splitOnCore (sep : List Char) : Nat → List Char → List Char →
    List (List Char)
  | _, [], acc => [acc.reverse]
  | 0, l, acc => [acc.reverse ++ l]
  | fuel + 1, c :: rest, acc =>
      if sep.isPrefixOf (c :: rest) then
        acc.reverse :: splitOnCore sep fuel ((c :: rest).drop sep.length) []
      else
        splitOnCore sep fuel rest (c :: acc)

/-- Rust's `str::split` collected into a list of fragments. -/
def strSplitOn (s sep : String) : List String :=
  (splitOnCore sep.data s.data.length s.data []).map (fun l => String.mk l)

/-- The value escaping performed by `QueryFilter::into_tuples`:
`self.value.clone().replace(" ", "%20")`. -/
def escapeValue (s : String) : String :=
  strReplace s " " "%20"

/-- `QueryFilter::into_tuples` from `src/types/filter.rs`. -/
def intoTuples (f : QueryFilter) : String × String × String :=
  (f.key, opDisplay f.operator, escapeValue f.value)

/-- `<Vec<QueryFilter> as IntoQueryTuples>::into_query_string`:
map each filter through `into_tuples`, format each tuple as
`key__operator=value`, and join with `&`. -/
def intoQueryString (v : List QueryFilter) : String :=
  String.intercalate "&"
    ((v.map intoTuples).map fun t => t.1 ++ "__" ++ t.2.1 ++ "=" ++ t.2.2)

/-! ### Spec-side definitions for the filter claims -/

/-- Spec side: the lowercase name of each operator, without negation. -/
def opBaseName (op : FilterOperator) : String :=
  match op with
  | .Equals _ => "equals"
  | .IEquals _ => "iequals"
  | .Contains _ => "contains"
  | .IContains _ => "icontains"
  | .StartsWith _ => "startswith"
  | .IStartsWith _ => "istartswith"
  | .EndsWith _ => "endswith"
  | .IEndsWith _ => "iendswith"
  | .Like _ => "like"
  | .Regex _ => "regex"
  | .Gt _ => "gt"
  | .Gte _ => "gte"
  | .Lt _ => "lt"
  | .Lte _ => "lte"
  | .Between _ => "between"

/-- Spec side: the negation flag of an operator. -/
def opNegated (op : FilterOperator) : Bool :=
  match op with
  | .Equals b | .IEquals b | .Contains b | .IContains b
  | .StartsWith b | .IStartsWith b | .EndsWith b | .IEndsWith b
  | .Like b | .Regex b | .Gt b | .Gte b | .Lt b | .Lte b | .Between b => b

/-- Spec side: the query fragment the spec prescribes for one filter:
`<field>__<operator-token>=<escaped-value>`, the token being the lowercase
operator name prefixed with `not_` exactly when negated. -/
def specFragment (f : QueryFilter) : String :=
  f.key ++ "__" ++ (if opNegated f.operator then "not_" else "")
    ++ opBaseName f.operator ++ "=" ++ escapeValue f.value

/-- Spec side for C5 (amended): the applicability table actually realized by
the code — `Equals` universal; comparison operators numeric-or-date;
`Contains` string-or-array; `IEquals`, `IContains` and all pattern
operators string-only. -/
def specApplicable (op : FilterOperator) (dt : DataType) : Bool :=
  match op with
  | .Equals _ => true
  | .IEquals _ => dt == DataType.String
  | .Contains _ => dt == DataType.String || dt == DataType.Array
  | .IContains _ => dt == DataType.String
  | .Gt _ | .Gte _ | .Lt _ | .Lte _ | .Between _ => dt == DataType.NumericOrDate
  | .StartsWith _ | .IStartsWith _ | .EndsWith _ | .IEndsWith _
  | .Like _ | .Regex _ => dt == DataType.String

/-! ### The derive macro's field classification (`api_resource_derive/src/lib.rs`) -/

/-- A symbolic Rust type: either a named base type or an `Option`-wrapping. -/
inductive Ty where
  | named (s : String)
  | option (t : Ty)
  deriving DecidableEq, Repr

/-- Is a type an `Option<...>` type? -/
def isOptionTy : Ty → Bool
  | .option _ => true
  | .named _ => false

/-- One annotated field of a resource description, as the derive macro sees
it: the field name, its declared type, and the `#[api(...)]` modifier flags.
The `table_rename` value only affects `tabled` display attributes, which are
presentation metadata; it is carried but does not influence shape
membership. -/
structure FieldDesc where
  name : String
  ty : Ty
  read_only : Bool
  post_only : Bool
  optional : Bool
  as_id : Bool
  table_rename : Option String
  deriving DecidableEq, Repr

/-- A generated struct field: its name and type. -/
abbrev ShapeField := String × Ty

/-- The field name used in the get/post/patch shapes: `<name>_id` when the
field is flagged `as_id`, otherwise the original name
(`process_fields`, the `id_field_name` binding). -/
def idFieldName (f : FieldDesc) : String :=
  if f.as_id then f.name ++ "_id" else f.name

/-- What one field contributes to the full-record (main) shape, per the
`if !is_post_only` branch of `process_fields`: the original name, with the
type `Option`-wrapped when flagged optional. -/
def fieldMain (f : FieldDesc) : List ShapeField :=
  if f.post_only then []
  else [(f.name, if f.optional then Ty.option f.ty else f.ty)]

/-- What one field contributes to the get-filter shape, per the
`if !is_post_only` branch of `process_fields`: the id-adjusted name with an
`Option`-wrapped type. -/
def fieldGet (f : FieldDesc) : List ShapeField :=
  if f.post_only then []
  else [(idFieldName f, Ty.option f.ty)]

/-- What one field contributes to the post shape, per the
`if is_post_only { .. } else if !is_read_only { .. }` chain of
`process_fields`. -/
def fieldPost (f : FieldDesc) : List ShapeField :=
  if f.post_only then [(idFieldName f, f.ty)]
  else if f.read_only then []
  else if f.as_id then
    [(idFieldName f,
      if f.optional then Ty.option (Ty.named "i32") else Ty.named "i32")]
  else
    [(idFieldName f, if f.optional then Ty.option f.ty else f.ty)]

/-- What one field contributes to the patch shape, per the same chain of
`process_fields`: nothing when post-only or read-only; the `i32`-typed id
field (optional exactly when the field is flagged optional) when `as_id`;
otherwise the id-adjusted name with an always-`Option`-wrapped type. -/
def fieldPatch (f : FieldDesc) : List ShapeField :=
  if f.post_only then []
  else if f.read_only then []
  else if f.as_id then
    [(idFieldName f,
      if f.optional then Ty.option (Ty.named "i32") else Ty.named "i32")]
  else
    [(idFieldName f, Ty.option f.ty)]

/-- `process_fields` from `api_resource_derive/src/lib.rs`: iterate the
fields in order, appending each field's contribution to the four
accumulated shapes (main, get, post, patch). -/
def processFields (fields : List FieldDesc) :
    List ShapeField × List ShapeField × List ShapeField × List ShapeField :=
  fields.foldl
    (fun acc f =>
      (acc.1 ++ fieldMain f, acc.2.1 ++ fieldGet f,
       acc.2.2.1 ++ fieldPost f, acc.2.2.2 ++ fieldPatch f))
    ([], [], [], [])

/-! ### Concrete resource descriptions (`src/resources/*.rs`) -/

/-- The annotated fields of `ClassResource` from `src/resources/class.rs`. -/
def classResourceFields : List FieldDesc :=
  [ { name := "id", ty := .named "i32", read_only := true,
      post_only := false, optional := false, as_id := false,
      table_rename := none },
    { name := "name", ty := .named "String", read_only := false,
      post_only := false, optional := false, as_id := false,
      table_rename := some "Name" },
    { name := "description", ty := .named "String", read_only := false,
      post_only := false, optional := false, as_id := false,
      table_rename := some "Description" },
    { name := "namespace", ty := .named "Namespace", read_only := false,
      post_only := false, optional := false, as_id := true,
      table_rename := some "Namespace" },
    { name := "json_schema", ty := .named "serde_json::Value",
      read_only := false, post_only := false, optional := true,
      as_id := false, table_rename := some "Schema" },
    { name := "validate_schema", ty := .named "bool", read_only := false,
      post_only := false, optional := true, as_id := false,
      table_rename := some "Validate" },
    { name := "created_at", ty := .named "chrono::NaiveDateTime",
      read_only := true, post_only := false, optional := false,
      as_id := false, table_rename := some "Created" },
    { name := "updated_at", ty := .named "chrono::NaiveDateTime",
      read_only := true, post_only := false, optional := false,
      as_id := false, table_rename := some "Updated" } ]

/-- The annotated fields of `NamespaceResource` from
`src/resources/namespace.rs`; `group_id` is flagged `post_only`. -/
def namespaceResourceFields : List FieldDesc :=
  [ { name := "id", ty := .named "i32", read_only := true,
      post_only := false, optional := false, as_id := false,
      table_rename := none },
    { name := "name", ty := .named "String", read_only := false,
      post_only := false, optional := false, as_id := false,
      table_rename := some "Name" },
    { name := "description", ty := .named "String", read_only := false,
      post_only := false, optional := false, as_id := false,
      table_rename := some "Description" },
    { name := "group_id", ty := .named "i32", read_only := false,
      post_only := true, optional := false, as_id := false,
      table_rename := some "Group" },
    { name := "created_at", ty := .named "chrono::NaiveDateTime",
      read_only := true, post_only := false, optional := false,
      as_id := false, table_rename := some "Created" },
    { name := "updated_at", ty := .named "chrono::NaiveDateTime",
      read_only := true, post_only := false, optional := false,
      as_id := false, table_rename := some "Updated" } ]

/-- The `namespace` field of `ClassResource` (`src/resources/class.rs`):
flagged `as_id`, not optional. -/
def classNamespaceField : FieldDesc :=
  { name := "namespace", ty := .named "Namespace", read_only := false,
    post_only := false, optional := false, as_id := true,
    table_rename := some "Namespace" }

/-- A field carrying both the `read_only` and the `post_only` modifier —
the combination §4.1 of the spec calls illegal; the derive macro accepts
it silently. -/
def readOnlyPostOnlyField : FieldDesc :=
  { name := "secret", ty := .named "String", read_only := true,
    post_only := true, optional := false, as_id := false,
    table_rename := none }

/-! ### Endpoints (`src/endpoints.rs`) -/

/-- The endpoint table from `src/endpoints.rs` (the variants present in the
source). -/
inductive Endpoint where
  | Login
  | LoginWithToken
  | Users
  | Groups
  | Classes
  | Namespaces
  | ObjectsInClass
  | ClassRelations
  | ClassRelationsTransitive
  | ClassRelationsTransitiveToClass
  | ObjectRelation
  | ObjectRelations
  deriving DecidableEq, Repr

/-- `Endpoint::path` from `src/endpoints.rs`. -/
def Endpoint.path : Endpoint → String
  | .Login => "/api/v0/auth/login"
  | .LoginWithToken => "/api/v0/auth/validate"
  | .Users => "/api/v1/iam/users/"
  | .Groups => "/api/v1/iam/groups/"
  | .Classes => "/api/v1/classes/"
  | .Namespaces => "/api/v1/namespaces/"
  | .ObjectsInClass => "/api/v1/classes/\x7bclass_id\x7d/"
  | .ClassRelations => "/api/v1/classes/\x7bclass_id\x7d/relations/"
  | .ClassRelationsTransitive =>
      "/api/v1/classes/\x7bclass_id\x7d/relations/transitive/"
  | .ClassRelationsTransitiveToClass =>
      "/api/v1/classes/\x7bclass_id\x7d/relations/transitive/class/\x7bto_class_id\x7d/"
  | .ObjectRelations =>
      "/api/v1/classes/\x7bclass_id\x7d/\x7bfrom_object_id\x7d/relations/"
  | .ObjectRelation =>
      "/api/v1/classes/\x7bclass_id\x7d/\x7bfrom_object_id\x7d/relations/\x7bto_class_id\x7d/\x7bto_object_id\x7d"

/-- `Endpoint::trim_start_matches('/')`: strip all leading `/` characters,
as Rust's `str::trim_start_matches` does. -/
def Endpoint.trimStartSlash (e : Endpoint) : String :=
  ⟨e.path.toList.dropWhile (· = '/')⟩

/-- `BaseUrl::with_trailing_slash` from `src/types/baseurl.rs`: append a
`/` unless the URL string already ends in one (`ends_with('/')` for a
single character is a last-character check). -/
def withTrailingSlash (s : String) : String :=
  if s.data.getLast? = some '/' then s else s ++ "/"

/-! ### Errors (`src/errors.rs` and the variants referenced by
`src/client/sync.rs`) -/

/-- The `ApiError` taxonomy: the variants declared in `src/errors.rs`
(transport and URL failures collapsed to their names) together with the
variants the client in `src/client/sync.rs` constructs
(`MissingUrlIdentifier`, `UnsupportedHttpOperation`, `DeserializationError`,
`EmptyResult`, `TooManyResults`). HTTP status codes are modelled as `Nat`. -/
inductive ApiError where
  | Http (message : String)
  | Json (message : String)
  | Api (message : String)
  | InvalidScheme (scheme : String)
  | UrlNotBase (url : String)
  | UrlParse (message : String)
  | InvalidToken
  | UrlSerialize (message : String)
  | MissingLocationHeader (location : String)
  | HttpWithBody (status : Nat) (message : String)
  | MissingUrlIdentifier
  | UnsupportedHttpOperation (method : String)
  | DeserializationError (body : String)
  | EmptyResult (message : String)
  | TooManyResults (message : String)
  deriving DecidableEq, Repr

/-! ### The blocking client (`src/client/sync.rs`) -/

/-- HTTP methods as dispatched by `request_with_endpoint`; `other` stands
for any method outside the four handled arms. -/
inductive Method where
  | GET
  | POST
  | PATCH
  | DELETE
  | other (name : String)
  deriving DecidableEq, Repr

/-- URL parameters: `type UrlParams = Vec<(Cow<str>, Cow<str>)>`. -/
abbrev UrlParams := List (String × String)

/-- `Client::build_url` from `src/client/sync.rs`: concatenate the base URL
(with trailing slash) and the endpoint path without its leading slashes,
then replace each `\x7bkey\x7d` placeholder with its value, in parameter
order. -/
def buildUrl (baseUrl : String) (endpoint : Endpoint)
    (url_params : UrlParams) : String :=
  url_params.foldl
    (fun url kv => strReplace url ("\x7b" ++ kv.1 ++ "\x7d") kv.2)
    (withTrailingSlash baseUrl ++ endpoint.trimStartSlash)

/-- A request as handed to the HTTP transport: method name, URL, optional
JSON body, and the bearer token attached by the client. -/
structure HttpRequest where
  method : Method
  url : String
  body : Option String
  bearer : String
  deriving DecidableEq, Repr

/-- A transport response: status code and body text. -/
structure HttpResponse where
  status : Nat
  body : String
  deriving DecidableEq, Repr

/-- `StatusCode::is_success`: 2xx. -/
def isSuccessStatus (s : Nat) : Bool :=
  200 ≤ s && s < 300

/-- The request-construction phase of `request_with_endpoint`
(`src/client/sync.rs`): builds the URL from the endpoint and URL
parameters, then per method: GET appends the serialized query string when
non-empty; POST attaches the JSON body; PATCH requires a `patch_id` URL
parameter (the first such entry) and appends its value to the URL, failing
with `MissingUrlIdentifier` when absent; DELETE appends the `Debug`
rendering of the post parameters; any other method fails with
`UnsupportedHttpOperation`. `postJson` stands for the serde serialization
of the post parameters and `postDebug` for their `Debug` rendering. -/
def buildRequest (baseUrl token : String) (method : Method)
    (endpoint : Endpoint) (url_params : UrlParams)
    (query_params : List QueryFilter) (postJson postDebug : String) :
    Except ApiError HttpRequest :=
  let url := buildUrl baseUrl endpoint url_params
  match method with
  | .GET =>
      let query := intoQueryString query_params
      let url := if query.isEmpty then url else url ++ "?" ++ query
      .ok { method := .GET, url := url, body := none, bearer := token }
  | .POST =>
      .ok { method := .POST, url := url, body := some postJson, bearer := token }
  | .PATCH =>
      match url_params.find? (fun p => p.1 == "patch_id") with
      | none => .error ApiError.MissingUrlIdentifier
      | some kv =>
          .ok { method := .PATCH, url := url ++ kv.2, body := some postJson,
                bearer := token }
  | .DELETE =>
      .ok { method := .DELETE, url := url ++ postDebug, body := none,
            bearer := token }
  | .other name => .error (ApiError.UnsupportedHttpOperation name)

/-- The response-classification phase of `request_with_endpoint`
(`src/client/sync.rs`): a non-success status yields `HttpWithBody` with the
message extracted from the body (`parseMessage` stands for the
serde_json parse plus `json["message"]` extraction, returning `none` when
the body is not parseable, in which case the raw body is used); on success,
DELETE demands an empty body (a non-empty one is a `DeserializationError`
carrying the body); a 204 status yields no value; otherwise the body is
deserialized into the expected shape (`deserialize` stands for the serde
decode), a failure again being a `DeserializationError` carrying the raw
text. -/
def handleResponse {U : Type} (method : Method)
    (deserialize : String → Option U) (parseMessage : String → Option String)
    (resp : HttpResponse) : Except ApiError (Option U) :=
  if !isSuccessStatus resp.status then
    let msg := match parseMessage resp.body with
      | some m => m
      | none => resp.body
    .error (ApiError.HttpWithBody resp.status msg)
  else if method = Method.DELETE then
    if resp.body = "" then .ok none
    else .error (ApiError.DeserializationError resp.body)
  else if resp.status = 204 then .ok none
  else
    match deserialize resp.body with
    | some u => .ok (some u)
    | none => .error (ApiError.DeserializationError resp.body)

/-- `Client::request_with_endpoint` from `src/client/sync.rs`, with the
transport abstracted as `send` and instrumented to also return the list of
requests actually handed to the transport: construct the request (failing
before any send when construction fails), send it, and classify the
response. -/
def requestWithEndpoint {U : Type} (baseUrl token : String)
    (method : Method) (endpoint : Endpoint) (url_params : UrlParams)
    (query_params : List QueryFilter) (postJson postDebug : String)
    (deserialize : String → Option U)
    (parseMessage : String → Option String)
    (send : HttpRequest → Except ApiError HttpResponse) :
    Except ApiError (Option U) × List HttpRequest :=
  match buildRequest baseUrl token method endpoint url_params query_params
      postJson postDebug with
  | .error e => (.error e, [])
  | .ok req =>
      match send req with
      | .error e => (.error e, [req])
      | .ok resp =>
          (handleResponse method deserialize parseMessage resp, [req])

/-- `one_or_err` from `src/client/sync.rs`. `typeName` stands for
`std::any::type_name::<T>()`; the code keeps only its last `::`-separated
segment. A one-element vector yields its element; an empty one an
`EmptyResult` naming the type; a longer one a `TooManyResults` reporting
the count. -/
def oneOrErr {α : Type} (typeName : String) (v : List α) :
    Except ApiError α :=
  let name := (strSplitOn typeName "::").getLastD typeName
  match v with
  | [x] => .ok x
  | [] => .error (ApiError.EmptyResult (name ++ " not found"))
  | xs =>
      .error (ApiError.TooManyResults
        ("Type: " ++ name ++ ", Count: " ++ toString xs.length
          ++ " (expected 1)"))

/-! ### The asynchronous client (`src/client/async.rs`) -/

/-- The async `Client::build_url` from `src/client/async.rs`: the same
base-plus-path concatenation as the blocking flavor, but the URL parameters
argument is ignored (`_url_params`) — no placeholder substitution. -/
def asyncBuildUrl (baseUrl : String) (endpoint : Endpoint)
    (_url_params : UrlParams) : String :=
  withTrailingSlash baseUrl ++ endpoint.trimStartSlash

/-- The URL the async `patch` builds (`src/client/async.rs`):
`format!("\x7b\x7d/\x7b\x7d", build_url, id)` — a `/` between the endpoint
URL and the id. -/
def asyncPatchUrl (baseUrl : String) (endpoint : Endpoint) (id : Int) :
    String :=
  asyncBuildUrl baseUrl endpoint [] ++ "/" ++ toString id

/-- The URL the async `delete` builds (`src/client/async.rs`), same shape
as its `patch`. -/
def asyncDeleteUrl (baseUrl : String) (endpoint : Endpoint) (id : Int) :
    String :=
  asyncBuildUrl baseUrl endpoint [] ++ "/" ++ toString id

/-- Authentication states of the client (`src/client/mod.rs`). -/
inductive AuthState where
  | Unauthenticated
  | Authenticated (token : String)
  deriving DecidableEq, Repr

/-- The blocking `login_with_token` classification (`src/client/sync.rs`):
a success response status yields the authenticated state carrying the
token; anything else is `InvalidToken`. -/
def syncLoginWithToken (token : String) (respSuccess : Bool) :
    Except ApiError AuthState :=
  if respSuccess then .ok (.Authenticated token)
  else .error ApiError.InvalidToken

/-- The async `login_with_token` classification (`src/client/async.rs`):
textually the same logic as the blocking flavor, modulo `await`. -/
def asyncLoginWithToken (token : String) (respSuccess : Bool) :
    Except ApiError AuthState :=
  if respSuccess then .ok (.Authenticated token)
  else .error ApiError.InvalidToken

/-- The URL the blocking `patch` produces: `Client::patch` pushes
`("patch_id", id.to_string())` onto the URL parameters and issues a PATCH
through `request_with_endpoint`, whose PATCH arm appends the found id
directly to the built URL. -/
def syncPatchRequest (baseUrl token : String) (endpoint : Endpoint)
    (id : Int) (url_params : UrlParams) (postJson : String) :
    Except ApiError HttpRequest :=
  buildRequest baseUrl token .PATCH endpoint
    (url_params ++ [("patch_id", toString id)]) [] postJson ""

/-- The request the blocking `delete` produces: `Client::delete` passes the
id as the post parameters of a DELETE, whose arm appends the `Debug`
rendering of the id (its decimal digits) directly to the built URL. -/
def syncDeleteRequest (baseUrl token : String) (endpoint : Endpoint)
    (id : Int) (url_params : UrlParams) :
    Except ApiError HttpRequest :=
  buildRequest baseUrl token .DELETE endpoint url_params [] "" (toString id)

/-! ### `build_params` (derive macro output and `src/resources/user.rs`) -/

/-- The `build_params` generated by the derive macro
(`api_resource_derive/src/lib.rs`): start from an empty vector and push one
`QueryFilter \x7b key, value, operator \x7d` per `(key, operator, value)`
tuple, in order. -/
def build_params (filters : List (String × FilterOperator × String)) :
    List QueryFilter :=
  filters.foldl
    (fun queries t =>
      queries ++ [{ key := t.1, value := t.2.2, operator := t.2.1 }])
    []

/-- `UserGet` from `src/resources/user.rs`; the datetime fields are
modelled as opaque strings. -/
structure UserGet where
  id : Option Int
  username : Option String
  email : Option String
  created_at : Option String
  updated_at : Option String
  deriving DecidableEq, Repr

/-- `UserGet::default()`: every field `None`. -/
def UserGet.default : UserGet :=
  ⟨none, none, none, none, none⟩

/-- The hand-written `User::build_params` from `src/resources/user.rs`:
fold the tuples into a `UserGet`, keeping only `username` and `email`
equality filters (the source matches on `FilterOperator::Eq`, a variant
that does not exist in `src/types/filter.rs`; it is modelled here as the
equality operator `Equals`) and silently ignoring every other
field/operator combination. Note the source declares this to return
`Self::GetParams`, contradicting the `ApiResource` trait's declared
`Vec<QueryFilter>` return type. -/
def userBuildParams (filters : List (String × FilterOperator × String)) :
    UserGet :=
  filters.foldl
    (fun params t =>
      match t.1, t.2.1 with
      | "username", .Equals _ => { params with username := some t.2.2 }
      | "email", .Equals _ => { params with email := some t.2.2 }
      | _, _ => params)
    UserGet.default

/-! ### `NAME_FIELD` (`src/resources/mod.rs` and the implementations) -/

/-- The resource kinds implementing `ApiResource`. -/
inductive ResourceKind where
  | User
  | Class
  | Group
  | Namespace
  | Object
  | ClassRelation
  | ObjectRelation
  deriving DecidableEq, Repr

/-- The trait-level default of `ApiResource::NAME_FIELD`
(`src/resources/mod.rs`). -/
def defaultNameField : String := "name"

/-- Per-implementation override of `NAME_FIELD`: the derive macro's
generated `impl ApiResource` blocks contain no `NAME_FIELD` item, and
neither does the hand-written `User` implementation, so no resource kind
overrides the trait default. -/
def nameFieldOverride : ResourceKind → Option String :=
  fun _ => none

/-- The `NAME_FIELD` in effect for a resource kind: its override if any,
else the trait default. -/
def nameField (k : ResourceKind) : String :=
  (nameFieldOverride k).getD defaultNameField

/-- The query filter `select_by_name` constructs
(`src/client/sync.rs`): key `T::NAME_FIELD`, non-negated equality. -/
def selectByNameFilter (k : ResourceKind) (name : String) : QueryFilter :=
  { key := nameField k, value := name,
    operator := FilterOperator.Equals false }

/-- `FilterBuilder::add_filter_name_exact` (`src/client/sync.rs`): append
an equality tuple on `T::NAME_FIELD` to the accumulated filters. -/
def addFilterNameExact (k : ResourceKind)
    (filters : List (String × FilterOperator × String)) (value : String) :
    List (String × FilterOperator × String) :=
  filters ++ [(nameField k, FilterOperator.Equals false, value)]

/-! ## Helper lemmas -/

lemma opDisplay_eq_token (op : FilterOperator) :
    opDisplay op =
      (if opNegated op then "not_" else "") ++ opBaseName op := by
  cases op <;> rename_i b <;> cases b <;> rfl

lemma processFields_go (fields : List FieldDesc)
    (m g po pa : List ShapeField) :
    fields.foldl
      (fun acc f =>
        (acc.1 ++ fieldMain f, acc.2.1 ++ fieldGet f,
         acc.2.2.1 ++ fieldPost f, acc.2.2.2 ++ fieldPatch f))
      (m, g, po, pa) =
    (m ++ fields.flatMap fieldMain, g ++ fields.flatMap fieldGet,
     po ++ fields.flatMap fieldPost, pa ++ fields.flatMap fieldPatch) := by
  induction fields generalizing m g po pa with
  | nil => simp
  | cons f rest ih =>
      simp only [List.foldl_cons, List.flatMap_cons, ih, List.append_assoc]

/-- The four shapes are the per-field contributions, concatenated in field
order. -/
lemma processFields_eq (fields : List FieldDesc) :
    processFields fields =
      (fields.flatMap fieldMain, fields.flatMap fieldGet,
       fields.flatMap fieldPost, fields.flatMap fieldPatch) := by
  have h := processFields_go fields [] [] [] []
  simpa [processFields] using h

/-! ## Claim theorems -/

/-- C1 (counterexample): a field carrying both the `read_only` and the
`post_only` modifier is NOT absent from the generated post shape — it
appears there, because `process_fields` checks `is_post_only` first and the
`else if !is_read_only` guard is never consulted for post-only fields. This
refutes the claim that a read-only field is absent from the post shape
"including when a single field carries both the read-only and the post-only
modifier". -/
theorem c1_counterexample :
    readOnlyPostOnlyField.read_only = true ∧
    readOnlyPostOnlyField.post_only = true ∧
    (processFields [readOnlyPostOnlyField]).2.2.1 =
      [("secret", Ty.named "String")] := by
  refine ⟨rfl, rfl, rfl⟩

/-- C1 (amended): the four generated shapes are the per-field contributions
concatenated in field order, and per field: a read-only field contributes
nothing to the patch shape, and nothing to the post shape unless it is also
marked post-only (the post-only modifier wins); a post-only field
contributes exactly one field to the post shape and nothing to the full
record, get-filter or patch shapes. -/
theorem c1_amended (fields : List FieldDesc) (f : FieldDesc) :
    processFields fields =
      (fields.flatMap fieldMain, fields.flatMap fieldGet,
       fields.flatMap fieldPost, fields.flatMap fieldPatch)
  ∧ (fieldPatch f).length = (if f.post_only || f.read_only then 0 else 1)
  ∧ (fieldPost f).length = (if !f.post_only && f.read_only then 0 else 1)
  ∧ (fieldMain f).length = (if f.post_only then 0 else 1)
  ∧ (fieldGet f).length = (if f.post_only then 0 else 1) := by
  refine ⟨processFields_eq fields, ?_, ?_, ?_, ?_⟩ <;>
    rcases f with ⟨n, ty, ro, po, opt, aid, rn⟩ <;>
    cases ro <;> cases po <;> cases opt <;> cases aid <;>
    simp [fieldPatch, fieldPost, fieldMain, fieldGet, idFieldName]

/-- C2 (counterexample): in the generated `ClassPatch` shape the
foreign-key field `namespace_id` has the plain integer type `i32`, not an
optional one, refuting "every one of those fields has an optional type in
the patch shape"; and the post-only `group_id` field of
`NamespaceResource` is present in the post shape but absent from the patch
shape, refuting "the patch-payload shape contains exactly the fields of the
post-payload shape". -/
theorem c2_counterexample :
    ("namespace_id", Ty.named "i32") ∈ (processFields classResourceFields).2.2.2
  ∧ isOptionTy (Ty.named "i32") = false
  ∧ "group_id" ∈ ((processFields namespaceResourceFields).2.2.1.map Prod.fst)
  ∧ "group_id" ∉ ((processFields namespaceResourceFields).2.2.2.map Prod.fst) := by
  refine ⟨by decide, rfl, by decide, by decide⟩

/-- C2 (amended): the patch shape holds exactly the field names of the post
shape except post-only fields; a plain field (neither post-only, read-only
nor `as_id`) is always `Option`-wrapped in the patch shape; but an `as_id`
field keeps in the patch shape exactly the type it has in the post shape —
the integer id field `<name>_id`, `Option<i32>` only when the field itself
is flagged optional, plain `i32` otherwise. -/
theorem c2_amended (fields : List FieldDesc) (f : FieldDesc) :
    (processFields fields).2.2.2 = fields.flatMap fieldPatch
  ∧ (fieldPatch f).map Prod.fst =
      (if f.post_only then [] else (fieldPost f).map Prod.fst)
  ∧ ((!f.post_only && !f.read_only && !f.as_id) = true →
      fieldPatch f = [(f.name, Ty.option f.ty)])
  ∧ ((!f.post_only && !f.read_only && f.as_id) = true →
      fieldPatch f = fieldPost f ∧
      fieldPatch f =
        [(f.name ++ "_id",
          if f.optional then Ty.option (Ty.named "i32")
          else Ty.named "i32")]) := by
  refine ⟨by rw [processFields_eq], ?_, ?_, ?_⟩ <;>
    rcases f with ⟨n, ty, ro, po, opt, aid, rn⟩ <;>
    cases ro <;> cases po <;> cases opt <;> cases aid <;>
    simp [fieldPatch, fieldPost, idFieldName]

/-- C2 (witness): the amended theorem applied to the `ClassResource`
description and its `namespace` field. -/
theorem c2_amended_witness :
    fieldPatch classNamespaceField = fieldPost classNamespaceField ∧
    fieldPatch classNamespaceField = [("namespace_id", Ty.named "i32")] := by
  have h :=
    (c2_amended classResourceFields classNamespaceField).2.2.2 (by decide)
  exact ⟨h.1, by simpa using h.2⟩

/-- C3: the derive-generated `build_params` is the direct 1:1 tuple-to-
filter map the claim states; but the hand-written `User::build_params`
(`src/resources/user.rs`) is not — evaluated at the failing input
`[("password", Equals, "x")]` it drops the tuple entirely (returning the
default `UserGet`), and it merges repeated `username` filters, the last
value winning. (Its declared return type `Self::GetParams` also contradicts
the `ApiResource` trait's `Vec<QueryFilter>`.) -/
theorem c3_build_params :
    (∀ filters, build_params filters =
      filters.map fun t => { key := t.1, value := t.2.2, operator := t.2.1 })
  ∧ userBuildParams [("password", FilterOperator.Equals false, "x")] =
      UserGet.default
  ∧ userBuildParams
      [("username", FilterOperator.Equals false, "a"),
       ("username", FilterOperator.Equals false, "b")] =
    userBuildParams [("username", FilterOperator.Equals false, "b")] := by
  refine ⟨?_, rfl, rfl⟩
  intro filters
  have go : ∀ (fs : List (String × FilterOperator × String))
      (acc : List QueryFilter),
      fs.foldl
        (fun queries t =>
          queries ++ [{ key := t.1, value := t.2.2, operator := t.2.1 }])
        acc =
      acc ++ fs.map fun t =>
        ({ key := t.1, value := t.2.2, operator := t.2.1 } : QueryFilter) := by
    intro fs
    induction fs with
    | nil => simp
    | cons t rest ih => intro acc; simp [ih, List.append_assoc]
  simpa [build_params] using go filters []

/-- C4: serializing a sequence of query filters yields the `&`-join, in
insertion order, of one `<field>__<operator-token>=<escaped-value>`
fragment per filter, the operator token being the lowercase operator name
prefixed with `not_` exactly when negated and the value having its spaces
percent-escaped; in particular non-negated equality on `username`/`alice`
gives `username__equals=alice` and the negated form
`username__not_equals=alice`. -/
theorem c4_query_serialization :
    (∀ v : List QueryFilter,
      intoQueryString v = String.intercalate "&" (v.map specFragment))
  ∧ intoQueryString [⟨"username", "alice", .Equals false⟩] =
      "username__equals=alice"
  ∧ intoQueryString [⟨"username", "alice", .Equals true⟩] =
      "username__not_equals=alice" := by
  refine ⟨?_, rfl, rfl⟩
  intro v
  unfold intoQueryString
  congr 1
  rw [List.map_map]
  apply List.map_congr_left
  intro f _
  simp [Function.comp, intoTuples, specFragment, opDisplay_eq_token,
    String.append_assoc]

/-- C5 (counterexample): case-insensitive equality is NOT applicable to
every data type, and case-insensitive contains is NOT applicable to arrays:
both fall into the string-only catch-all of `is_applicable_to`. -/
theorem c5_counterexample :
    isApplicableTo (.IEquals false) DataType.NumericOrDate = false
  ∧ isApplicableTo (.IContains false) DataType.Array = false := by
  exact ⟨rfl, rfl⟩

/-- C5 (amended): `is_applicable_to` realizes the table in which plain
equality is universal; the comparison operators require numeric-or-date;
plain `contains` applies to string or array; and `iequals`, `icontains`
and all pattern operators apply only to string. -/
theorem c5_amended (op : FilterOperator) (dt : DataType) :
    isApplicableTo op dt = specApplicable op dt := by
  cases op <;> cases dt <;> rfl

/-- C6: `one_or_err` returns the single element unwrapped when the vector
has length exactly one; fails with an `EmptyResult` ("<type> not found",
naming the last path segment of the resource type) when it is empty; and
fails with a `TooManyResults` reporting the length when it has two or more
elements. -/
theorem c6_one_or_err {α : Type} (typeName : String) (v : List α) :
    (∀ x, v = [x] → oneOrErr typeName v = .ok x)
  ∧ (v = [] → oneOrErr typeName v =
      .error (ApiError.EmptyResult
        ((strSplitOn typeName "::").getLastD typeName ++ " not found")))
  ∧ (2 ≤ v.length → oneOrErr typeName v =
      .error (ApiError.TooManyResults
        ("Type: " ++ (strSplitOn typeName "::").getLastD typeName
          ++ ", Count: " ++ toString v.length ++ " (expected 1)"))) := by
  rcases v with _ | ⟨a, _ | ⟨b, t⟩⟩
  · refine ⟨?_, fun _ => rfl, ?_⟩
    · intro x h; exact absurd h (by simp)
    · intro h; simp at h
  · refine ⟨?_, ?_, ?_⟩
    · intro x h
      obtain rfl : a = x := by simpa using h
      rfl
    · intro h; simp at h
    · intro h; simp at h
  · refine ⟨?_, ?_, fun _ => rfl⟩
    · intro x h; exact absurd h (by simp)
    · intro h; simp at h

/-- C6 (witness): `one_or_err` evaluated on concrete vectors for the type
name `hubuum_client::resources::Class`. -/
theorem c6_one_or_err_witness :
    oneOrErr "hubuum_client::resources::Class" ([] : List Nat) =
      .error (ApiError.EmptyResult "Class not found")
  ∧ oneOrErr "hubuum_client::resources::Class" [7] = .ok 7
  ∧ oneOrErr "hubuum_client::resources::Class" [1, 2, 3] =
      .error (ApiError.TooManyResults "Type: Class, Count: 3 (expected 1)") := by
  refine ⟨?_, ?_, ?_⟩
  · exact (c6_one_or_err "hubuum_client::resources::Class" []).2.1 rfl
  · exact (c6_one_or_err "hubuum_client::resources::Class" [7]).1 7 rfl
  · exact (c6_one_or_err "hubuum_client::resources::Class" [1, 2, 3]).2.2
      (by decide)

/-- C7: a PATCH issued through the generic request path whose URL
parameters contain no `patch_id` entry fails with `MissingUrlIdentifier`
and the transport receives no request at all; and that error is distinct
from every HTTP (not-found) response error. -/
theorem c7_patch_missing_identifier {U : Type} (baseUrl token : String)
    (endpoint : Endpoint) (url_params : UrlParams)
    (query_params : List QueryFilter) (postJson postDebug : String)
    (deserialize : String → Option U)
    (parseMessage : String → Option String)
    (send : HttpRequest → Except ApiError HttpResponse)
    (h : url_params.find? (fun p => p.1 == "patch_id") = none) :
    requestWithEndpoint baseUrl token .PATCH endpoint url_params
        query_params postJson postDebug deserialize parseMessage send =
      (.error ApiError.MissingUrlIdentifier, [])
  ∧ ∀ status message,
      ApiError.MissingUrlIdentifier ≠ ApiError.HttpWithBody status message := by
  constructor
  · simp [requestWithEndpoint, buildRequest, h]
  · intro status message hEq; cases hEq

/-- C7 (witness): a concrete PATCH with empty URL parameters fails with
`MissingUrlIdentifier` and an empty sent-request list, whatever the
transport would have answered. -/
theorem c7_patch_missing_identifier_witness :
    requestWithEndpoint (U := Nat) "https://api.example.com" "tok" .PATCH
        .Classes [] [] "" "" (fun _ => none) (fun _ => none)
        (fun _ => .ok ⟨200, ""⟩) =
      (.error ApiError.MissingUrlIdentifier, []) :=
  (c7_patch_missing_identifier "https://api.example.com" "tok" .Classes []
    [] "" "" (fun _ => none) (fun _ => none) (fun _ => .ok ⟨200, ""⟩)
    rfl).1

/-- C8: for a DELETE whose response has a success status, the generic
response handler succeeds with no value exactly when the body is empty and
fails with a `DeserializationError` carrying the body text otherwise — it
never succeeds on a non-empty DELETE body. -/
theorem c8_delete_body {U : Type} (deserialize : String → Option U)
    (parseMessage : String → Option String) (resp : HttpResponse)
    (h : isSuccessStatus resp.status = true) :
    handleResponse Method.DELETE deserialize parseMessage resp =
      (if resp.body = "" then .ok none
       else .error (ApiError.DeserializationError resp.body))
  ∧ (resp.body ≠ "" → ∀ u : Option U,
      handleResponse Method.DELETE deserialize parseMessage resp ≠ .ok u) := by
  have hmain : handleResponse Method.DELETE deserialize parseMessage resp =
      (if resp.body = "" then .ok none
       else .error (ApiError.DeserializationError resp.body)) := by
    simp [handleResponse, h]
  refine ⟨hmain, ?_⟩
  intro hb u hc
  rw [hmain] at hc
  simp [hb] at hc

/-- C8 (witness): a successful DELETE response with the non-empty body
`leftover` fails with a `DeserializationError` carrying it, and one with an
empty body succeeds with no value. -/
theorem c8_delete_body_witness :
    handleResponse (U := Nat) Method.DELETE (fun _ => none) (fun _ => none)
        ⟨200, "leftover"⟩ =
      .error (ApiError.DeserializationError "leftover")
  ∧ handleResponse (U := Nat) Method.DELETE (fun _ => none) (fun _ => none)
        ⟨200, ""⟩ = .ok none := by
  constructor
  · have h := (c8_delete_body (U := Nat) (fun _ => none) (fun _ => none)
      ⟨200, "leftover"⟩ rfl).1
    simpa using h
  · have h := (c8_delete_body (U := Nat) (fun _ => none) (fun _ => none)
      ⟨200, ""⟩ rfl).1
    simpa using h

/-- C9 (counterexample): the two flavors do not build the same URL for
every operation: for a PATCH (and DELETE) of `Classes` id 3, the blocking
client sends `https://api.example.com/api/v1/classes/3` while the async
client builds `https://api.example.com/api/v1/classes//3` — an extra `/`
inserted before the id. -/
theorem c9_counterexample :
    syncPatchRequest "https://api.example.com" "tok" .Classes 3 [] "" =
      .ok { method := .PATCH,
            url := "https://api.example.com/api/v1/classes/3",
            body := some "", bearer := "tok" }
  ∧ asyncPatchUrl "https://api.example.com" .Classes 3 =
      "https://api.example.com/api/v1/classes//3"
  ∧ "https://api.example.com/api/v1/classes/3" ≠
      "https://api.example.com/api/v1/classes//3"
  ∧ syncDeleteRequest "https://api.example.com" "tok" .Classes 3 [] =
      .ok { method := .DELETE,
            url := "https://api.example.com/api/v1/classes/3",
            body := none, bearer := "tok" }
  ∧ asyncDeleteUrl "https://api.example.com" .Classes 3 =
      "https://api.example.com/api/v1/classes//3" := by
  refine ⟨rfl, by decide, by decide, rfl, by decide⟩

/-- C9 (amended): the two flavors implement the same authentication state
machine — token validation classifies a success response as
`Authenticated` with the token and any other response as `InvalidToken`
identically — and build the same URL when no URL parameters are supplied
(the async flavor ignores URL parameters altogether); but their request
contracts differ for PATCH and DELETE, where the async client inserts an
extra `/` before the target id (see the counterexample). -/
theorem c9_amended :
    (∀ (baseUrl : String) (endpoint : Endpoint) (ps : UrlParams),
      buildUrl baseUrl endpoint [] = asyncBuildUrl baseUrl endpoint ps)
  ∧ (∀ (token : String) (respSuccess : Bool),
      syncLoginWithToken token respSuccess =
        asyncLoginWithToken token respSuccess) := by
  exact ⟨fun _ _ _ => rfl, fun _ _ => rfl⟩

/-- C10: the filter key used by `select_by_name` and by
`add_filter_name_exact` is the literal string `name` for every resource
kind: the trait default of `NAME_FIELD` is `name` and no implementation
overrides it, the in-code documentation about `groupname`/`username`
notwithstanding. -/
theorem c10_name_field (k : ResourceKind) (n v : String)
    (filters : List (String × FilterOperator × String)) :
    nameField k = "name"
  ∧ (selectByNameFilter k n).key = "name"
  ∧ addFilterNameExact k filters v =
      filters ++ [("name", FilterOperator.Equals false, v)] := by
  exact ⟨rfl, rfl, rfl⟩

end Hubuum
